import Mathlib

/-!
Shallow embedding of the two demo scripts of the htn-eyeware/eyeware
repository: `src/eyetracking/pyside.py` and `src/eyeware.py`.

Both scripts are orchestration glue around an eye-tracker SDK
(`adhawkapi`) and OpenCV. We embed the original logic of the scripts —
the `Frontend` callback state machine and the `GazeViewer` frame/gaze
handlers — as pure functions producing traces of the external calls they
make (SDK calls as `ApiAction`, OpenCV image operations as `DrawOp`).
External components (the SDK transport, video decoding, the pedestrian
detector and the centroid tracker from the absent
`Pedestrian_detection`/`Pedestrian_tracking` modules) appear only as
inputs: a frame is a pair of decoded dimensions, and a tracked person is
a record carrying exactly the attributes the handlers read
(`centroid`, `rect[1]`, `is_seen`, `is_person_close`, and the
`is_person_seen` predicate as an abstract boolean function of the gaze
coordinates).

Python floats are modelled as a rational value together with a NaN flag
(`GFloat`); `math.isnan` reads the flag and Python `int()` truncates the
rational toward zero (`pyInt`). SDK error arguments are modelled as
`Option String`: `none` is a falsy (absent) error, `some msg` an error
whose text is interpolated into the printed message.
-/

/-- A Python float as received from the SDK gaze stream: a rational value
together with a flag recording whether the float is NaN (in which case the
value component is irrelevant). -/
structure GFloat where
  val : Rat
  nan : Bool
  deriving DecidableEq, Repr

/-- The `math.isnan` test on a modelled Python float. -/
def GFloat.isnan (x : GFloat) : Bool := x.nan

/-- Python `int()` applied to a rational: truncation toward zero. -/
def pyInt (x : Rat) : Int := if 0 ≤ x then ⌊x⌋ else ⌈x⌉

/-- The gaze coordinate pair held in `GazeViewer._gaze_coordinates`. -/
def GazeCoords := GFloat × GFloat
deriving DecidableEq

/-- String rendering of a modelled float, used for the on-image text
overlay built from the gaze coordinates. -/
def gfloatStr (x : GFloat) : String :=
  if x.nan then "nan" else toString x.val

/-- The text drawn by the f-string interpolation of the two gaze
coordinates separated by a comma and a space. -/
def gazeString (g : GazeCoords) : String :=
  gfloatStr g.1 ++ ", " ++ gfloatStr g.2

/-! SDK enumeration tags. The numeric values of the vendor enums never
matter to the scripts; we fix arbitrary tags, shared by both scripts
since both import the same `adhawkapi` module. -/

namespace PacketType

/-- Tag for the GAZE_IN_IMAGE data stream. -/
def GAZE_IN_IMAGE : Nat := 0

end PacketType

namespace CameraResolution

/-- Tag for `adhawkapi.CameraResolution.MEDIUM`. -/
def MEDIUM : Nat := 1

end CameraResolution

namespace LogMode

/-- Tag for `adhawkapi.LogMode.BASIC`. -/
def BASIC : Nat := 0

end LogMode

/-- One call into the eye-tracker SDK (or process-level effect), recorded
in order of execution. Address arguments are the video receiver address
unpacked by the scripts with a star. -/
inductive ApiAction where
  | register_stream_handler (packet : Nat)
  | api_start
  | set_stream_control (packet : Nat) (rate : Nat)
  | start_camera_capture (camera_index : Nat) (resolution_index : Nat)
      (correct_distortion : Bool)
  | start_log_session (log_mode : Nat)
  | start_video_stream (addr : Nat)
  | stop_video_stream (addr : Nat)
  | stop_camera_capture
  | stop_log_session
  | api_shutdown
  | print_line (s : String)
  | sys_exit
  deriving DecidableEq, Repr

/-- True exactly on the `start_video_stream` action. -/
def ApiAction.isStartVideoStream : ApiAction → Bool
  | .start_video_stream _ => true
  | _ => false

/-- Decoded dimensions of a received video frame, the only data of the
externally decoded image that could influence the overlay geometry. -/
structure Frame where
  width : Nat
  height : Nat
  deriving DecidableEq, Repr

/-- One OpenCV image operation issued by a frame handler, recorded in
order of execution, plus the console print the pyside handler ends with.
Colours are the literal tuples of the source, as lists of channel values
(the secondary marker colour has four components). -/
inductive DrawOp where
  | putText (text : String) (org : Int × Int) (fontScale : Rat)
      (color : List Int) (thickness : Int)
  | circle (center : Int × Int) (radius : Int) (color : List Int)
      (thickness : Int)
  | rectangle (pt1 : Int × Int) (pt2 : Int × Int) (color : List Int)
      (thickness : Int)
  | imshow
  | consolePrint (s : String)
  deriving DecidableEq, Repr

/-- True exactly on `circle` operations: a gaze marker, were one drawn,
would be a circle op. -/
def DrawOp.isCircle : DrawOp → Bool
  | .circle .. => true
  | _ => false

/-- The colour of the first `rectangle` operation in a list of draw
operations, if any. -/
def rectColourIn : List DrawOp → Option (List Int)
  | [] => none
  | DrawOp.rectangle _ _ c _ :: _ => some c
  | _ :: rest => rectColourIn rest

/-- The shared state of a `Frontend` object: the stored video receiver
address and the `connected` flag. The `_api` handle itself is external;
its methods appear as recorded `ApiAction`s. Both scripts declare a
textually identical `Frontend` class, so the same state type serves the
embeddings of both files. -/
structure FrontendState where
  video_receiver_address : Nat
  connected : Bool
  deriving DecidableEq, Repr

namespace Pyside

/-- File `src/eyetracking/pyside.py`, `Frontend.__init__` (lines 33-48):
registers the gaze stream handler, starts the api, stores the receiver
address, and initializes `connected` to `False`. -/
def Frontend.init (video_receiver_address : Nat) :
    FrontendState × List ApiAction :=
  (⟨video_receiver_address, false⟩,
   [ApiAction.register_stream_handler PacketType.GAZE_IN_IMAGE,
    ApiAction.api_start])

/-- File `src/eyetracking/pyside.py`, `Frontend.shutdown` (lines 50-63):
stops the video stream, stops camera capture, stops the log session, and
shuts down the api, in that order. -/
def Frontend.shutdown (f : FrontendState) : List ApiAction :=
  [ApiAction.stop_video_stream f.video_receiver_address,
   ApiAction.stop_camera_capture,
   ApiAction.stop_log_session,
   ApiAction.api_shutdown]

/-- File `src/eyetracking/pyside.py`, `Frontend._handle_connect_response`
(lines 65-82). A falsy error (`none`) sets the GAZE_IN_IMAGE stream rate
to 125, starts camera capture on camera 1 at MEDIUM resolution without
distortion correction, starts a BASIC log session, and sets `connected`
to `True`; a truthy error does nothing. -/
def Frontend.handle_connect_response (f : FrontendState)
    (error : Option String) : FrontendState × List ApiAction :=
  if error.isNone then
    ({f with connected := true},
     [ApiAction.set_stream_control PacketType.GAZE_IN_IMAGE 125,
      ApiAction.start_camera_capture 1 CameraResolution.MEDIUM false,
      ApiAction.start_log_session LogMode.BASIC])
  else
    (f, [])

/-- File `src/eyetracking/pyside.py`,
`Frontend._handle_camera_start_response` (lines 84-94). On error: print
the error, run the full shutdown sequence, and exit. Otherwise: start the
video stream to the stored receiver address. -/
def Frontend.handle_camera_start_response (f : FrontendState)
    (error : Option String) : List ApiAction :=
  match error with
  | some msg =>
      ApiAction.print_line ("Camera start error: " ++ msg) ::
        Frontend.shutdown f ++ [ApiAction.sys_exit]
  | none =>
      [ApiAction.start_video_stream f.video_receiver_address]

/-- File `src/eyetracking/pyside.py`, the initial value of
`GazeViewer._gaze_coordinates` (line 111): the dummy pair `(0, 0)`. -/
def GazeViewer.initGazeCoordinates : GazeCoords :=
  (⟨0, false⟩, ⟨0, false⟩)

/-- File `src/eyetracking/pyside.py`,
`GazeViewer._handle_gaze_in_image_stream` (lines 152-153): overwrite the
stored coordinates with the packet coordinates. -/
def GazeViewer.handle_gaze_in_image_stream
    (gaze_img_x gaze_img_y : GFloat) (_st : GazeCoords) : GazeCoords :=
  (gaze_img_x, gaze_img_y)

/-- Stored gaze coordinates after a sequence of gaze packets has been
delivered to the handler, starting from the initial dummy value. -/
def GazeViewer.gazeAfterPackets (ps : List (GFloat × GFloat)) :
    GazeCoords :=
  ps.foldl
    (fun st p => GazeViewer.handle_gaze_in_image_stream p.1 p.2 st)
    GazeViewer.initGazeCoordinates

/-- Constant at line 16 of `src/eyetracking/pyside.py`. -/
def MARKER_SIZE : Int := 20

/-- Constant at line 17 of `src/eyetracking/pyside.py`. -/
def MARKER_COLOR : List Int := [0, 250, 50]

/-- Constant at line 19 of `src/eyetracking/pyside.py`. -/
def SECONDARY_MARKER_SIZE : Int := 200

/-- Constant at line 20 of `src/eyetracking/pyside.py`. -/
def SECONDARY_MARKER_COLOR : List Int := [250, 0, 0, 64]

/-- Constant at line 24 of `src/eyetracking/pyside.py`. -/
def FONT_SCALE : Rat := 1

/-- Constant at line 25 of `src/eyetracking/pyside.py`. -/
def TEXT_ORG : Int × Int := (50, 50)

/-- Constant at line 26 of `src/eyetracking/pyside.py`. -/
def TEXT_COLOR : List Int := [0, 0, 255]

/-- Constant at line 27 of `src/eyetracking/pyside.py`. -/
def TEXT_THICKNESS : Int := 2

/-- File `src/eyetracking/pyside.py`, `GazeViewer._handle_video_stream`
(lines 129-149): decode the frame (external), overlay the gaze
coordinates as text at the fixed origin `TEXT_ORG`, show the image, and
print the stored coordinate list to the console. The `waitKey` quit
branch is interactive keyboard input outside the drawing trace. The
decoded frame is untouched apart from these operations; in particular no
circle or marker is drawn. -/
def GazeViewer.handle_video_stream (_frame : Frame) (gaze : GazeCoords) :
    List DrawOp :=
  [DrawOp.putText (gazeString gaze) TEXT_ORG FONT_SCALE TEXT_COLOR
     TEXT_THICKNESS,
   DrawOp.imshow,
   DrawOp.consolePrint ("[" ++ gazeString gaze ++ "]")]

end Pyside

namespace Eyeware

/-- Constant at line 22 of `src/eyeware.py`. -/
def MARKER_SIZE : Int := 5

/-- Constant at line 23 of `src/eyeware.py`. -/
def MARKER_COLOR : List Int := [0, 250, 50]

/-- Constant at line 25 of `src/eyeware.py`. -/
def SECONDARY_MARKER_SIZE : Int := 20

/-- Constant at line 26 of `src/eyeware.py`. -/
def SECONDARY_MARKER_COLOR : List Int := [250, 0, 0, 64]

/-- Constant at line 30 of `src/eyeware.py`. -/
def FONT_SCALE : Rat := 1 / 2

/-- Constant at line 31 of `src/eyeware.py`. -/
def TEXT_ORG : Int × Int := (50, 50)

/-- Constant at line 32 of `src/eyeware.py`. -/
def TEXT_COLOR : List Int := [0, 0, 255]

/-- Constant at line 33 of `src/eyeware.py`. -/
def TEXT_THICKNESS : Int := 2

/-- Module-level `play_sound` flag of `src/eyeware.py`, line 36,
initialized to `False`. -/
def play_sound : Bool := false

/-- File `src/eyeware.py`, `Frontend.__init__` (lines 41-56): registers
the gaze stream handler, starts the api, stores the receiver address, and
initializes `connected` to `False`. -/
def Frontend.init (video_receiver_address : Nat) :
    FrontendState × List ApiAction :=
  (⟨video_receiver_address, false⟩,
   [ApiAction.register_stream_handler PacketType.GAZE_IN_IMAGE,
    ApiAction.api_start])

/-- File `src/eyeware.py`, `Frontend.shutdown` (lines 58-71): stops the
video stream, stops camera capture, stops the log session, and shuts down
the api, in that order. -/
def Frontend.shutdown (f : FrontendState) : List ApiAction :=
  [ApiAction.stop_video_stream f.video_receiver_address,
   ApiAction.stop_camera_capture,
   ApiAction.stop_log_session,
   ApiAction.api_shutdown]

/-- File `src/eyeware.py`, `Frontend._handle_connect_response`
(lines 73-90). A falsy error (`none`) sets the GAZE_IN_IMAGE stream rate
to 125, starts camera capture on camera 1 at MEDIUM resolution without
distortion correction, starts a BASIC log session, and sets `connected`
to `True`; a truthy error does nothing. -/
def Frontend.handle_connect_response (f : FrontendState)
    (error : Option String) : FrontendState × List ApiAction :=
  if error.isNone then
    ({f with connected := true},
     [ApiAction.set_stream_control PacketType.GAZE_IN_IMAGE 125,
      ApiAction.start_camera_capture 1 CameraResolution.MEDIUM false,
      ApiAction.start_log_session LogMode.BASIC])
  else
    (f, [])

/-- File `src/eyeware.py`, `Frontend._handle_camera_start_response`
(lines 92-102). On error: print the error, run the full shutdown
sequence, and exit. Otherwise: start the video stream to the stored
receiver address. -/
def Frontend.handle_camera_start_response (f : FrontendState)
    (error : Option String) : List ApiAction :=
  match error with
  | some msg =>
      ApiAction.print_line ("Camera start error: " ++ msg) ::
        Frontend.shutdown f ++ [ApiAction.sys_exit]
  | none =>
      [ApiAction.start_video_stream f.video_receiver_address]

/-- A tracked person, as produced by the external
`CentroidTracker.update` of the absent `Pedestrian_tracking` module. The
record carries exactly the attributes the frame handler reads:
`centroid` (a pixel point), the bounding box `person.rect[1]` flattened
into the four components `(rect[1][0], rect[1][1], rect[1][2],
rect[1][3])`, the booleans `is_seen` and `is_person_close`, and the
method `is_person_seen` as an abstract boolean predicate on the gaze
coordinate pair passed to it. -/
structure Person where
  centroid : Int × Int
  rect_box : Int × Int × Int × Int
  is_seen : Bool
  is_person_close : Bool
  is_person_seen : GazeCoords → Bool

/-- The bounding rectangle operation drawn for a person with a given
colour: `cv2.rectangle(image, (rect[1][0], rect[1][1]), (rect[1][2],
rect[1][3]), colour, 2)` as at lines 164, 168, 171 and 174 of
`src/eyeware.py`. -/
def rectOf (p : Person) (colour : List Int) : DrawOp :=
  DrawOp.rectangle (p.rect_box.1, p.rect_box.2.1)
    (p.rect_box.2.2.1, p.rect_box.2.2.2) colour 2

/-- One iteration of the tracked-object loop of
`GazeViewer._handle_video_stream` (lines 154-174 of `src/eyeware.py`):
draw the ID text and the centroid dot, then one bounding rectangle chosen
by the seen/gazed/close branch; the boolean is the contribution of this
person to the local `play_sound` variable (set in the close, un-gazed,
un-seen branch at line 169). -/
def handlePerson (gaze : GazeCoords) (objectID : Nat) (p : Person) :
    List DrawOp × Bool :=
  let headerOps : List DrawOp :=
    [DrawOp.putText ("ID " ++ toString objectID)
       (p.centroid.1 - 10, p.centroid.2 - 10) (1 / 2) [0, 255, 0] 2,
     DrawOp.circle p.centroid 4 [0, 255, 0] (-1)]
  if p.is_seen then
    (headerOps ++ [rectOf p [0, 255, 0]], false)
  else if !(p.is_person_seen gaze) then
    if p.is_person_close then
      (headerOps ++ [rectOf p [255, 0, 0]], true)
    else
      (headerOps ++ [rectOf p [255, 255, 0]], false)
  else
    (headerOps ++ [rectOf p [0, 255, 0]], false)

/-- The draw operations of the whole tracked-object loop, in iteration
order. -/
def personsOps (gaze : GazeCoords) (objects : List (Nat × Person)) :
    List DrawOp :=
  (objects.map fun x => (handlePerson gaze x.1 x.2).1).flatten

/-- The value of the handler-local `play_sound` variable after the loop:
`False` before the loop (line 151), set to `True` by any flagged person
(line 169) and never reset within the loop. -/
def localPlaySound (gaze : GazeCoords) (objects : List (Nat × Person)) :
    Bool :=
  objects.any fun x => (handlePerson gaze x.1 x.2).2

/-- The gaze-marker block at lines 190-194 of `src/eyeware.py`: when
neither stored coordinate is NaN, compute `fixed_gaze_coords` by
truncating `x / 1280 * 640` and `y / 720 * 360` with Python `int()` and
draw the two marker circles there; when either coordinate is NaN, draw
nothing. -/
def gazeMarkerOps (gaze : GazeCoords) : List DrawOp :=
  if !(gaze.1.isnan || gaze.2.isnan) then
    let fixed_gaze_coords : Int × Int :=
      (pyInt (gaze.1.val / 1280 * 640), pyInt (gaze.2.val / 720 * 360))
    [DrawOp.circle fixed_gaze_coords MARKER_SIZE MARKER_COLOR 2,
     DrawOp.circle fixed_gaze_coords SECONDARY_MARKER_SIZE
       SECONDARY_MARKER_COLOR 2]
  else
    []

/-- File `src/eyeware.py`, `GazeViewer._handle_video_stream`
(lines 139-199). Decoding, resizing to width 640, pedestrian detection
and `self.ct.update(results)` are external; the resulting tracked-object
items are the `objects` input. The handler draws the per-person
operations of the loop, the coordinate text overlay, the (possibly
empty) gaze-marker block, and shows the image; the second component is
the final value of the handler-local `play_sound` variable. The decoded
frame dimensions influence none of the recorded operations. -/
def GazeViewer.handle_video_stream (_frame : Frame) (gaze : GazeCoords)
    (objects : List (Nat × Person)) : List DrawOp × Bool :=
  (personsOps gaze objects ++
     [DrawOp.putText (gazeString gaze) TEXT_ORG FONT_SCALE TEXT_COLOR
        TEXT_THICKNESS] ++
     gazeMarkerOps gaze ++ [DrawOp.imshow],
   localPlaySound gaze objects)

/-- File `src/eyeware.py`, the initial value of
`GazeViewer._gaze_coordinates` (line 119): the dummy pair `(0, 0)`. -/
def GazeViewer.initGazeCoordinates : GazeCoords :=
  (⟨0, false⟩, ⟨0, false⟩)

/-- File `src/eyeware.py`, `GazeViewer._handle_gaze_in_image_stream`
(lines 202-203): overwrite the stored coordinates with the packet
coordinates. -/
def GazeViewer.handle_gaze_in_image_stream
    (gaze_img_x gaze_img_y : GFloat) (_st : GazeCoords) : GazeCoords :=
  (gaze_img_x, gaze_img_y)

/-- Stored gaze coordinates after a sequence of gaze packets has been
delivered to the handler, starting from the initial dummy value. -/
def GazeViewer.gazeAfterPackets (ps : List (GFloat × GFloat)) :
    GazeCoords :=
  ps.foldl
    (fun st p => GazeViewer.handle_gaze_in_image_stream p.1 p.2 st)
    GazeViewer.initGazeCoordinates

/-- The module-level `play_sound` flag after any number of frames has
been handled. The assignments `play_sound = False` (line 151) and
`play_sound = True` (line 169) occur inside `_handle_video_stream`
without a `global` declaration, so by Python scoping they bind a
function-local variable and the module-level flag is never written: it
keeps its initial value regardless of the handled frames. -/
def modulePlaySoundAfterFrames
    (_frames : List (Frame × GazeCoords × List (Nat × Person))) : Bool :=
  play_sound

/-- The process-level action `play_warning_sound` takes, as a function of
the module-level `play_sound` flag it reads (lines 208-213 of
`src/eyeware.py`): start the playsound process when the flag is set,
otherwise call `terminate` on the never-started process (which plays
nothing). -/
inductive SoundAction where
  | soundStart
  | soundTerminate
  deriving DecidableEq, Repr

/-- File `src/eyeware.py`, `play_warning_sound` (lines 208-213), as a
function of the module-level flag it reads. -/
def play_warning_sound (flag : Bool) : SoundAction :=
  if flag then SoundAction.soundStart else SoundAction.soundTerminate

/-- File `src/eyeware.py`, `main` (lines 217-227): `play_warning_sound`
is called exactly once, right after constructing the `GazeViewer` and
before the connection wait loop, reading the module-level `play_sound`
flag as it stands at that point (its initial value, and — by
`modulePlaySoundAfterFrames` — its value after any number of frames). -/
def mainSoundAction : SoundAction :=
  play_warning_sound play_sound

end Eyeware

/-! Concrete fixtures used to instantiate the theorems below. -/

/-- A NaN-free gaze coordinate pair at pixel position (100, 50). -/
def g0 : GazeCoords := (⟨100, false⟩, ⟨50, false⟩)

/-- A gaze coordinate pair whose first coordinate is NaN. -/
def gNaN : GazeCoords := (⟨0, true⟩, ⟨50, false⟩)

/-- A decoded frame of dimensions 640 by 360. -/
def f0 : Frame := ⟨640, 360⟩

/-- A second decoded frame of different dimensions. -/
def f1 : Frame := ⟨1280, 720⟩

/-- A close tracked person, not marked seen, whose gaze-overlap predicate
is constantly false. -/
def pRed : Eyeware.Person :=
  ⟨(30, 40), (10, 20, 50, 60), false, true, fun _ => false⟩

/-- A tracked person already marked seen. -/
def pGreen : Eyeware.Person :=
  ⟨(30, 40), (10, 20, 50, 60), true, false, fun _ => false⟩

/-- A far tracked person, not marked seen, never gazed at. -/
def pYellow : Eyeware.Person :=
  ⟨(30, 40), (10, 20, 50, 60), false, false, fun _ => false⟩

/-- A close tracked person, not marked seen, whose gaze-overlap predicate
is constantly true. -/
def pGazed : Eyeware.Person :=
  ⟨(30, 40), (10, 20, 50, 60), false, true, fun _ => true⟩

/-- A person distinct from `pRed` in identity data and in the
gaze-overlap predicate as a function, but agreeing with `pRed` on the
three predicate values at the gaze `gNaN`. -/
def pRedOther : Eyeware.Person :=
  ⟨(99, 9), (1, 2, 3, 4), false, true, fun g => g.2.nan⟩

/-! Theorems settling the claims. -/

/-- Helper: every draw operation of one tracked person's loop iteration
appears in the output of the detector-variant frame handler. -/
theorem mem_handler_of_mem_handlePerson (frame : Frame)
    (gaze : GazeCoords) (objects : List (Nat × Eyeware.Person))
    (objectID : Nat) (p : Eyeware.Person)
    (hmem : (objectID, p) ∈ objects) (op : DrawOp)
    (hop : op ∈ (Eyeware.handlePerson gaze objectID p).1) :
    op ∈ (Eyeware.GazeViewer.handle_video_stream frame gaze objects).1 := by
  unfold Eyeware.GazeViewer.handle_video_stream
  apply List.mem_append_left
  apply List.mem_append_left
  apply List.mem_append_left
  unfold Eyeware.personsOps
  rw [List.mem_flatten]
  exact ⟨(Eyeware.handlePerson gaze objectID p).1,
    List.mem_map_of_mem _ hmem, hop⟩

/-- C4: In both scripts, a connect response without error sets the
GAZE_IN_IMAGE stream rate to 125 Hz, starts camera capture, starts a log
session, and sets the connected flag to True; a connect response with an
error performs none of these api actions and leaves the freshly
initialized frontend with connected still False. -/
theorem c4_connect_response (addr : Nat) (msg : String) :
    ((Pyside.Frontend.init addr).1.connected = false ∧
      Pyside.Frontend.handle_connect_response
          (Pyside.Frontend.init addr).1 none =
        ({(Pyside.Frontend.init addr).1 with connected := true},
         [ApiAction.set_stream_control PacketType.GAZE_IN_IMAGE 125,
          ApiAction.start_camera_capture 1 CameraResolution.MEDIUM false,
          ApiAction.start_log_session LogMode.BASIC]) ∧
      Pyside.Frontend.handle_connect_response
          (Pyside.Frontend.init addr).1 (some msg) =
        ((Pyside.Frontend.init addr).1, [])) ∧
    ((Eyeware.Frontend.init addr).1.connected = false ∧
      Eyeware.Frontend.handle_connect_response
          (Eyeware.Frontend.init addr).1 none =
        ({(Eyeware.Frontend.init addr).1 with connected := true},
         [ApiAction.set_stream_control PacketType.GAZE_IN_IMAGE 125,
          ApiAction.start_camera_capture 1 CameraResolution.MEDIUM false,
          ApiAction.start_log_session LogMode.BASIC]) ∧
      Eyeware.Frontend.handle_connect_response
          (Eyeware.Frontend.init addr).1 (some msg) =
        ((Eyeware.Frontend.init addr).1, [])) :=
  ⟨⟨rfl, rfl, rfl⟩, ⟨rfl, rfl, rfl⟩⟩

/-- C5: In both scripts the gaze-packet handler overwrites the stored
coordinates with the coordinates of the packet: after any packet history
ending in packet p the stored pair is exactly p, the overlay text of a
subsequent frame is computed from that pair, and before any packet the
stored pair is the dummy (0, 0). -/
theorem c5_gaze_overwrite (ps : List (GFloat × GFloat))
    (p : GFloat × GFloat) (frame : Frame)
    (objects : List (Nat × Eyeware.Person)) :
    Pyside.GazeViewer.gazeAfterPackets [] = (⟨0, false⟩, ⟨0, false⟩) ∧
    Eyeware.GazeViewer.gazeAfterPackets [] = (⟨0, false⟩, ⟨0, false⟩) ∧
    Pyside.GazeViewer.gazeAfterPackets (ps ++ [p]) = (p.1, p.2) ∧
    Eyeware.GazeViewer.gazeAfterPackets (ps ++ [p]) = (p.1, p.2) ∧
    Pyside.GazeViewer.handle_video_stream frame
        (Pyside.GazeViewer.gazeAfterPackets (ps ++ [p])) =
      Pyside.GazeViewer.handle_video_stream frame (p.1, p.2) ∧
    Eyeware.GazeViewer.handle_video_stream frame
        (Eyeware.GazeViewer.gazeAfterPackets (ps ++ [p])) objects =
      Eyeware.GazeViewer.handle_video_stream frame (p.1, p.2) objects := by
  have hp : Pyside.GazeViewer.gazeAfterPackets (ps ++ [p]) = (p.1, p.2) := by
    simp [Pyside.GazeViewer.gazeAfterPackets, List.foldl_append,
      Pyside.GazeViewer.handle_gaze_in_image_stream]
  have he : Eyeware.GazeViewer.gazeAfterPackets (ps ++ [p]) = (p.1, p.2) := by
    simp [Eyeware.GazeViewer.gazeAfterPackets, List.foldl_append,
      Eyeware.GazeViewer.handle_gaze_in_image_stream]
  exact ⟨rfl, rfl, hp, he, by rw [hp], by rw [he]⟩

/-- C6: The Frontend class behaves identically in the two scripts: for
every receiver address, frontend state, connect response and camera-start
response, construction, the connect handler, the camera-start handler and
the shutdown sequence of the two embeddings perform the same api actions
and produce the same state. -/
theorem c6_frontend_equivalence (addr : Nat) (f : FrontendState)
    (error : Option String) :
    Pyside.Frontend.init addr = Eyeware.Frontend.init addr ∧
    Pyside.Frontend.handle_connect_response f error =
      Eyeware.Frontend.handle_connect_response f error ∧
    Pyside.Frontend.handle_camera_start_response f error =
      Eyeware.Frontend.handle_camera_start_response f error ∧
    Pyside.Frontend.shutdown f = Eyeware.Frontend.shutdown f :=
  ⟨rfl, rfl, rfl, rfl⟩

/-- C10: In both scripts, a camera-start response with an error prints
the error and runs exactly the shutdown sequence stop video stream, stop
camera capture, stop log session, shut down the api, followed by the
exit; no start of the video stream occurs on that path, and the video
stream is started (as the only action) exactly when the camera-start
response carries no error. -/
theorem c10_camera_error_shutdown (f : FrontendState) (msg : String) :
    (Pyside.Frontend.handle_camera_start_response f (some msg) =
        [ApiAction.print_line ("Camera start error: " ++ msg),
         ApiAction.stop_video_stream f.video_receiver_address,
         ApiAction.stop_camera_capture,
         ApiAction.stop_log_session,
         ApiAction.api_shutdown,
         ApiAction.sys_exit] ∧
      ((Pyside.Frontend.handle_camera_start_response f (some msg)).all
          fun a => !a.isStartVideoStream) = true ∧
      Pyside.Frontend.handle_camera_start_response f none =
        [ApiAction.start_video_stream f.video_receiver_address]) ∧
    (Eyeware.Frontend.handle_camera_start_response f (some msg) =
        [ApiAction.print_line ("Camera start error: " ++ msg),
         ApiAction.stop_video_stream f.video_receiver_address,
         ApiAction.stop_camera_capture,
         ApiAction.stop_log_session,
         ApiAction.api_shutdown,
         ApiAction.sys_exit] ∧
      ((Eyeware.Frontend.handle_camera_start_response f (some msg)).all
          fun a => !a.isStartVideoStream) = true ∧
      Eyeware.Frontend.handle_camera_start_response f none =
        [ApiAction.start_video_stream f.video_receiver_address]) :=
  ⟨⟨rfl, rfl, rfl⟩, ⟨rfl, rfl, rfl⟩⟩

/-- C1: In the detector variant, for every tracked person returned by the
tracker update in a frame: if the person is not marked seen, the gaze
point does not fall on the person, and the person is close, the frame
handler draws the flag rectangle of colour (255, 0, 0) (the colour the
source marks as the red alert colour) around the person; a person that
is seen or gazed at gets the (0, 255, 0) green rectangle; a far un-gazed
un-seen person gets the (255, 255, 0) yellow rectangle. -/
theorem c1_rect_colours (frame : Frame) (gaze : GazeCoords)
    (objects : List (Nat × Eyeware.Person)) (objectID : Nat)
    (p : Eyeware.Person) (hmem : (objectID, p) ∈ objects) :
    (p.is_seen = false → p.is_person_seen gaze = false →
      p.is_person_close = true →
      Eyeware.rectOf p [255, 0, 0] ∈
        (Eyeware.GazeViewer.handle_video_stream frame gaze objects).1) ∧
    (p.is_seen = true ∨ p.is_person_seen gaze = true →
      Eyeware.rectOf p [0, 255, 0] ∈
        (Eyeware.GazeViewer.handle_video_stream frame gaze objects).1) ∧
    (p.is_seen = false → p.is_person_seen gaze = false →
      p.is_person_close = false →
      Eyeware.rectOf p [255, 255, 0] ∈
        (Eyeware.GazeViewer.handle_video_stream frame gaze objects).1) := by
  refine ⟨fun h1 h2 h3 => ?_, fun h => ?_, fun h1 h2 h3 => ?_⟩
  · exact mem_handler_of_mem_handlePerson frame gaze objects objectID p
      hmem _ (by simp [Eyeware.handlePerson, h1, h2, h3])
  · apply mem_handler_of_mem_handlePerson frame gaze objects objectID p
      hmem _
    rcases h with h | h
    · simp [Eyeware.handlePerson, h]
    · cases hs : p.is_seen <;> simp [Eyeware.handlePerson, hs, h]
  · exact mem_handler_of_mem_handlePerson frame gaze objects objectID p
      hmem _ (by simp [Eyeware.handlePerson, h1, h2, h3])

/-- Witness for C1: each of the three cases at a concrete frame, gaze
and person. -/
theorem c1_rect_colours_witness :
    Eyeware.rectOf pRed [255, 0, 0] ∈
      (Eyeware.GazeViewer.handle_video_stream f0 g0 [(0, pRed)]).1 ∧
    Eyeware.rectOf pGreen [0, 255, 0] ∈
      (Eyeware.GazeViewer.handle_video_stream f0 g0 [(0, pGreen)]).1 ∧
    Eyeware.rectOf pGazed [0, 255, 0] ∈
      (Eyeware.GazeViewer.handle_video_stream f0 g0 [(0, pGazed)]).1 ∧
    Eyeware.rectOf pYellow [255, 255, 0] ∈
      (Eyeware.GazeViewer.handle_video_stream f0 g0 [(0, pYellow)]).1 :=
  ⟨(c1_rect_colours f0 g0 [(0, pRed)] 0 pRed (by simp)).1 rfl rfl rfl,
   (c1_rect_colours f0 g0 [(0, pGreen)] 0 pGreen (by simp)).2.1
     (Or.inl rfl),
   (c1_rect_colours f0 g0 [(0, pGazed)] 0 pGazed (by simp)).2.1
     (Or.inr rfl),
   (c1_rect_colours f0 g0 [(0, pYellow)] 0 pYellow (by simp)).2.2
     rfl rfl rfl⟩

/-- C7: The rectangle colour the detector-variant loop draws for a
tracked person is a function only of the three externally supplied
predicate values is_seen, is_person_seen applied to the stored gaze, and
is_person_close: two persons (under possibly different gazes and object
ids) on which these three values agree receive the same colour. -/
theorem c7_colour_depends_only_on_flags (g g2 : GazeCoords) (i i2 : Nat)
    (p q : Eyeware.Person) (h1 : p.is_seen = q.is_seen)
    (h2 : p.is_person_seen g = q.is_person_seen g2)
    (h3 : p.is_person_close = q.is_person_close) :
    rectColourIn (Eyeware.handlePerson g i p).1 =
      rectColourIn (Eyeware.handlePerson g2 i2 q).1 := by
  unfold Eyeware.handlePerson
  rw [h1, h2, h3]
  cases q.is_seen <;> cases hq : q.is_person_seen g2 <;>
    cases q.is_person_close <;>
    simp [rectColourIn, Eyeware.rectOf]

/-- Witness for C7: two persons with different centroids, boxes and
gaze-overlap predicates, under different gazes and ids, agreeing on the
three predicate values, receive the same rectangle colour. -/
theorem c7_colour_witness :
    rectColourIn (Eyeware.handlePerson g0 0 pRed).1 =
      rectColourIn (Eyeware.handlePerson gNaN 1 pRedOther).1 :=
  c7_colour_depends_only_on_flags g0 gNaN 0 1 pRed pRedOther rfl rfl rfl

/-- C8: In the detector variant, if either stored gaze coordinate is
NaN, the gaze-marker block draws nothing (no coordinate reaches the
circle-drawing calls), the handler output is exactly the per-person
operations, the textual coordinate overlay built from the NaN-containing
pair, and the image display, and the per-person decision still consults
is_person_seen at the NaN-containing pair: for an un-seen close person
the local flag is the negation of that predicate value. -/
theorem c8_nan_skips_marker (frame : Frame) (gaze : GazeCoords)
    (objects : List (Nat × Eyeware.Person))
    (h : gaze.1.nan = true ∨ gaze.2.nan = true) :
    Eyeware.gazeMarkerOps gaze = [] ∧
    (Eyeware.GazeViewer.handle_video_stream frame gaze objects).1 =
      Eyeware.personsOps gaze objects ++
        [DrawOp.putText (gazeString gaze) Eyeware.TEXT_ORG
           Eyeware.FONT_SCALE Eyeware.TEXT_COLOR Eyeware.TEXT_THICKNESS] ++
        [DrawOp.imshow] ∧
    (∀ objectID p, Eyeware.Person.is_seen p = false →
      Eyeware.Person.is_person_close p = true →
      (Eyeware.handlePerson gaze objectID p).2 =
        !(Eyeware.Person.is_person_seen p gaze)) := by
  have hmark : Eyeware.gazeMarkerOps gaze = [] := by
    rcases h with h | h <;> simp [Eyeware.gazeMarkerOps, GFloat.isnan, h]
  refine ⟨hmark, ?_, ?_⟩
  · simp [Eyeware.GazeViewer.handle_video_stream, hmark]
  · intro objectID p h1 h2
    cases hs : Eyeware.Person.is_person_seen p gaze <;>
      simp [Eyeware.handlePerson, h1, h2, hs]

/-- Witness for C8 at a gaze pair whose first coordinate is NaN. -/
theorem c8_nan_skips_marker_witness :
    Eyeware.gazeMarkerOps gNaN = [] ∧
    (Eyeware.GazeViewer.handle_video_stream f0 gNaN [(0, pRed)]).1 =
      Eyeware.personsOps gNaN [(0, pRed)] ++
        [DrawOp.putText (gazeString gNaN) Eyeware.TEXT_ORG
           Eyeware.FONT_SCALE Eyeware.TEXT_COLOR Eyeware.TEXT_THICKNESS] ++
        [DrawOp.imshow] ∧
    (Eyeware.handlePerson gNaN 0 pRed).2 =
      !(Eyeware.Person.is_person_seen pRed gNaN) :=
  ⟨(c8_nan_skips_marker f0 gNaN [(0, pRed)] (Or.inl rfl)).1,
   (c8_nan_skips_marker f0 gNaN [(0, pRed)] (Or.inl rfl)).2.1,
   (c8_nan_skips_marker f0 gNaN [(0, pRed)] (Or.inl rfl)).2.2 0 pRed
     rfl rfl⟩

/-- C9: In the detector variant, for a NaN-free gaze pair (x, y) the
marker block draws the two circles at the integer point obtained by
truncating x / 1280 * 640 and y / 720 * 360 with Python int(); that
point is each coordinate halved and truncated, and the handler output is
independent of the decoded frame's dimensions. -/
theorem c9_marker_rescale (frame frame2 : Frame) (gaze : GazeCoords)
    (objects : List (Nat × Eyeware.Person))
    (h1 : gaze.1.nan = false) (h2 : gaze.2.nan = false) :
    Eyeware.gazeMarkerOps gaze =
      [DrawOp.circle
         (pyInt (gaze.1.val / 1280 * 640), pyInt (gaze.2.val / 720 * 360))
         Eyeware.MARKER_SIZE Eyeware.MARKER_COLOR 2,
       DrawOp.circle
         (pyInt (gaze.1.val / 1280 * 640), pyInt (gaze.2.val / 720 * 360))
         Eyeware.SECONDARY_MARKER_SIZE Eyeware.SECONDARY_MARKER_COLOR 2] ∧
    pyInt (gaze.1.val / 1280 * 640) = pyInt (gaze.1.val / 2) ∧
    pyInt (gaze.2.val / 720 * 360) = pyInt (gaze.2.val / 2) ∧
    Eyeware.GazeViewer.handle_video_stream frame gaze objects =
      Eyeware.GazeViewer.handle_video_stream frame2 gaze objects := by
  refine ⟨?_, ?_, ?_, rfl⟩
  · simp [Eyeware.gazeMarkerOps, GFloat.isnan, h1, h2]
  · congr 1
    ring
  · congr 1
    ring

/-- Witness for C9 at the concrete gaze pair (100, 50): the marker lands
at (50, 25). -/
theorem c9_marker_rescale_witness :
    Eyeware.gazeMarkerOps g0 =
      [DrawOp.circle (50, 25) 5 [0, 250, 50] 2,
       DrawOp.circle (50, 25) 20 [250, 0, 0, 64] 2] :=
  ((c9_marker_rescale f0 f1 g0 [] rfl rfl).1).trans
    (by norm_num [pyInt, g0, Eyeware.MARKER_SIZE, Eyeware.MARKER_COLOR,
      Eyeware.SECONDARY_MARKER_SIZE, Eyeware.SECONDARY_MARKER_COLOR])

/-- C2 (code bug): on a frame containing a close tracked person the user
has not looked at, the frame handler computes a true flag — but only
into its function-local play_sound variable; the module-level play_sound
flag the sound routine reads stays False after any number of frames, and
the single play_warning_sound call main makes therefore takes the
terminate branch, so the warning sound is never played. -/
theorem c2_sound_never_played :
    Eyeware.localPlaySound g0 [(0, pRed)] = true ∧
    (Eyeware.GazeViewer.handle_video_stream f0 g0 [(0, pRed)]).2 = true ∧
    (∀ frames, Eyeware.modulePlaySoundAfterFrames frames = false) ∧
    Eyeware.mainSoundAction = Eyeware.SoundAction.soundTerminate :=
  ⟨rfl, rfl, fun _ => rfl, rfl⟩

/-- C3 counterexample: at a concrete frame and a concrete NaN-free gaze
pair, the pyside frame handler's output contains no circle operation at
all, so the pyside variant draws no marker at the gaze point. -/
theorem c3_no_marker_counterexample :
    ¬ ∃ op ∈ Pyside.GazeViewer.handle_video_stream f0 g0,
        op.isCircle = true := by
  simp [Pyside.GazeViewer.handle_video_stream, DrawOp.isCircle]

/-- C3 amended: the detector variant overlays the marker circles at the
rescaled gaze point whenever neither stored coordinate is NaN, while the
pyside variant only overlays the gaze coordinates as text at the fixed
origin (and prints them), drawing no marker at the gaze point. -/
theorem c3_amended_marker_overlay (frame : Frame) (gaze : GazeCoords)
    (objects : List (Nat × Eyeware.Person))
    (h1 : gaze.1.nan = false) (h2 : gaze.2.nan = false) :
    Pyside.GazeViewer.handle_video_stream frame gaze =
      [DrawOp.putText (gazeString gaze) Pyside.TEXT_ORG Pyside.FONT_SCALE
         Pyside.TEXT_COLOR Pyside.TEXT_THICKNESS,
       DrawOp.imshow,
       DrawOp.consolePrint ("[" ++ gazeString gaze ++ "]")] ∧
    ((Pyside.GazeViewer.handle_video_stream frame gaze).all
        fun op => !op.isCircle) = true ∧
    DrawOp.circle
        (pyInt (gaze.1.val / 1280 * 640), pyInt (gaze.2.val / 720 * 360))
        Eyeware.MARKER_SIZE Eyeware.MARKER_COLOR 2 ∈
      (Eyeware.GazeViewer.handle_video_stream frame gaze objects).1 := by
  refine ⟨rfl, rfl, ?_⟩
  unfold Eyeware.GazeViewer.handle_video_stream
  apply List.mem_append_left
  apply List.mem_append_right
  simp [Eyeware.gazeMarkerOps, GFloat.isnan, h1, h2]

/-- Witness for the amended C3 at a concrete frame and gaze pair. -/
theorem c3_amended_marker_overlay_witness :
    Pyside.GazeViewer.handle_video_stream f0 g0 =
      [DrawOp.putText (gazeString g0) Pyside.TEXT_ORG Pyside.FONT_SCALE
         Pyside.TEXT_COLOR Pyside.TEXT_THICKNESS,
       DrawOp.imshow,
       DrawOp.consolePrint ("[" ++ gazeString g0 ++ "]")] ∧
    DrawOp.circle
        (pyInt (g0.1.val / 1280 * 640), pyInt (g0.2.val / 720 * 360))
        Eyeware.MARKER_SIZE Eyeware.MARKER_COLOR 2 ∈
      (Eyeware.GazeViewer.handle_video_stream f0 g0 []).1 :=
  ⟨(c3_amended_marker_overlay f0 g0 [] rfl rfl).1,
   (c3_amended_marker_overlay f0 g0 [] rfl rfl).2.2⟩
